import Mathlib

/-!
Verification of the `filament::Program` shader-program descriptor/builder
(`src/filament/src/driver/Program.h`).

`Program` accumulates, per shader stage, raw byte buffers, borrowed
references to uniform/sampler interface blocks indexed by binding point,
a sampler-binding-map reference, and diagnostic metadata (name, variant).

The header declares the mutating operations; their out-of-line bodies
(`Program.cpp`) are not part of the sources, so those operations are
modelled from the specification, as marked in their doc comments.
Borrowed external references (interface blocks, binding map) are modelled
as opaque addresses (`Nat`); an empty slot is `none`.
-/

namespace Filament

/-- `Program::NUM_SHADER_TYPES = 2` (VERTEX, FRAGMENT), from the header. -/
def NUM_SHADER_TYPES : Nat := 2

/-- Modelled from the spec: `filament::BindingPoints::COUNT` lives in
`EngineEnums.h`, which is not among the sources; the spec only requires a
fixed compile-time constant counting the enumerated binding points (and its
end-to-end scenario uses indices 0 and 2, so the count is at least 3).
A representative concrete value is chosen; no theorem below depends on it. -/
def BindingPoints.COUNT : Nat := 6

/-- `Program::NUM_UNIFORM_BINDINGS = filament::BindingPoints::COUNT`. -/
def NUM_UNIFORM_BINDINGS : Nat := BindingPoints.COUNT

/-- `Program::NUM_SAMPLER_BINDINGS = filament::BindingPoints::COUNT`. -/
def NUM_SAMPLER_BINDINGS : Nat := BindingPoints.COUNT

/-- `Program::Shader`: the two shader stages. -/
inductive Shader : Type where
  | VERTEX : Shader
  | FRAGMENT : Shader
deriving DecidableEq, Repr

instance : Fintype Shader :=
  ⟨⟨{Shader.VERTEX, Shader.FRAGMENT}, by decide⟩, fun s => by cases s <;> decide⟩

/-- The error taxonomy of the spec that applies to this component:
`InvalidBinding` signals a binding-point index outside the valid range. -/
inductive ProgramError : Type where
  | InvalidBinding : ProgramError
deriving DecidableEq, Repr

/-- The state of a `Program` (private fields of the class, header lines
118-124).  Pointers to external objects are `Option Nat` (`none` = null /
empty slot); `std::vector<uint8_t>` buffers are `List Nat`;
`utils::CString` is `String`; `size_t` and `uint8_t` scalars are `Nat`. -/
structure Program : Type where
  mUniformInterfaceBlocks : Fin NUM_UNIFORM_BINDINGS → Option Nat
  mSamplerInterfaceBlocks : Fin NUM_SAMPLER_BINDINGS → Option Nat
  mSamplerBindings : Option Nat
  mShadersSource : Shader → List Nat
  mSamplerCount : Nat
  mName : String
  mVariant : Nat

instance : DecidableEq Program := fun p q =>
  decidable_of_iff
    (p.mUniformInterfaceBlocks = q.mUniformInterfaceBlocks ∧
     p.mSamplerInterfaceBlocks = q.mSamplerInterfaceBlocks ∧
     p.mSamplerBindings = q.mSamplerBindings ∧
     p.mShadersSource = q.mShadersSource ∧
     p.mSamplerCount = q.mSamplerCount ∧
     p.mName = q.mName ∧
     p.mVariant = q.mVariant)
    (by cases p; cases q; simp)

/-- Modelled from the spec: `Program::Program()` has its body in the absent
`Program.cpp`; the header's default member initializers set both block
arrays to `{}`, the binding map to `nullptr` and `mSamplerCount` to `0`,
and the spec has the instance "created empty" with default name/variant
(empty label, variant key 0). -/
def Program.init : Program where
  mUniformInterfaceBlocks := fun _ => none
  mSamplerInterfaceBlocks := fun _ => none
  mSamplerBindings := none
  mShadersSource := fun _ => []
  mSamplerCount := 0
  mName := ""
  mVariant := 0

/-- Modelled from the spec: `Program::diagnostics(name, variantKey)` (body
in the absent `Program.cpp`) "sets the diagnostic label and variant key.
No validation; pure metadata." -/
def Program.diagnostics (p : Program) (name : String) (variantKey : Nat) :
    Program :=
  { p with mName := name, mVariant := variantKey }

/-- The one-argument form of `diagnostics`: the header declares the second
parameter with default argument `variantKey = 0`. -/
def Program.diagnosticsDefault (p : Program) (name : String) : Program :=
  p.diagnostics name 0

/-- Modelled from the spec: `Program::shader(shader, data, size)` (body in
the absent `Program.cpp`) "copies `size` bytes from `data` into the buffer
for `stage`, replacing any prior content for that stage"; the byte
sequence `data` of length `size` is passed as a `List Nat`. -/
def Program.shader (p : Program) (stage : Shader) (data : List Nat) :
    Program :=
  { p with mShadersSource := Function.update p.mShadersSource stage data }

/-- `Program::withVertexShader(data, size)`, inline in the header:
forwards to `shader` with stage `VERTEX`. -/
def Program.withVertexShader (p : Program) (data : List Nat) : Program :=
  p.shader Shader.VERTEX data

/-- `Program::withFragmentShader(data, size)`, inline in the header:
forwards to `shader` with stage `FRAGMENT`. -/
def Program.withFragmentShader (p : Program) (data : List Nat) : Program :=
  p.shader Shader.FRAGMENT data

/-- Modelled from the spec: `Program::addUniformBlock(index, ib)` (body in
the absent `Program.cpp`) "stores the borrowed reference at
`uniformBlocks[index]`, overwriting any previous occupant"; for an index
outside `[0, bindingPointCount)` "the operation fails with `InvalidBinding`
and leaves all slots unchanged (no partial corruption)".  The result pairs
the error raised at the call site (if any) with the state after the call. -/
def Program.addUniformBlock (p : Program) (index : Nat) (ib : Nat) :
    Option ProgramError × Program :=
  if h : index < NUM_UNIFORM_BINDINGS then
    (none, { p with
      mUniformInterfaceBlocks :=
        Function.update p.mUniformInterfaceBlocks ⟨index, h⟩ (some ib) })
  else
    (some ProgramError.InvalidBinding, p)

/-- Modelled from the spec: `Program::addSamplerBlock(index, sb)` (body in
the absent `Program.cpp`) "stores the borrowed reference at
`samplerBlocks[index]`; increments `samplerCount` when the slot transitions
from empty to occupied (does not increment on overwrite of an
already-occupied slot)"; out-of-range indices fail with `InvalidBinding`
leaving all slots unchanged. -/
def Program.addSamplerBlock (p : Program) (index : Nat) (sb : Nat) :
    Option ProgramError × Program :=
  if h : index < NUM_SAMPLER_BINDINGS then
    (none, { p with
      mSamplerInterfaceBlocks :=
        Function.update p.mSamplerInterfaceBlocks ⟨index, h⟩ (some sb),
      mSamplerCount :=
        if p.mSamplerInterfaceBlocks ⟨index, h⟩ = none then
          p.mSamplerCount + 1
        else
          p.mSamplerCount })
  else
    (some ProgramError.InvalidBinding, p)

/-- Modelled from the spec: `Program::withSamplerBindings(bindings)` (body
in the absent `Program.cpp`) "stores the single borrowed reference to the
binding map, overwriting any previous one". -/
def Program.withSamplerBindings (p : Program) (bindings : Nat) : Program :=
  { p with mSamplerBindings := some bindings }

/-- Modelled from the spec: the move constructor / move assignment (bodies
in the absent `Program.cpp`) "copy all array contents, pointers, and
scalars into the destination and leave the source in a valid,
empty-equivalent state (as if freshly constructed)".  The result pairs the
destination with the moved-from source. -/
def Program.move (p : Program) : Program × Program :=
  (p, Program.init)

/-- `Program::getShadersSource()`, inline in the header. -/
def Program.getShadersSource (p : Program) : Shader → List Nat :=
  p.mShadersSource

/-- `Program::getUniformInterfaceBlocks()`, inline in the header. -/
def Program.getUniformInterfaceBlocks (p : Program) :
    Fin NUM_UNIFORM_BINDINGS → Option Nat :=
  p.mUniformInterfaceBlocks

/-- `Program::getSamplerInterfaceBlocks()`, inline in the header. -/
def Program.getSamplerInterfaceBlocks (p : Program) :
    Fin NUM_SAMPLER_BINDINGS → Option Nat :=
  p.mSamplerInterfaceBlocks

/-- `Program::getSamplerBindings()`, inline in the header. -/
def Program.getSamplerBindings (p : Program) : Option Nat :=
  p.mSamplerBindings

/-- `Program::getName()`, inline in the header. -/
def Program.getName (p : Program) : String :=
  p.mName

/-- `Program::getVariant()`, inline in the header. -/
def Program.getVariant (p : Program) : Nat :=
  p.mVariant

/-- `Program::hasSamplers()`, inline in the header:
`return mSamplerCount > 0;`. -/
def Program.hasSamplers (p : Program) : Bool :=
  decide (p.mSamplerCount > 0)

/-- One mutating builder operation on a `Program`. -/
inductive Op : Type where
  | diagnostics (name : String) (variantKey : Nat) : Op
  | shader (stage : Shader) (data : List Nat) : Op
  | addUniformBlock (index : Nat) (ib : Nat) : Op
  | addSamplerBlock (index : Nat) (sb : Nat) : Op
  | withSamplerBindings (bindings : Nat) : Op
deriving DecidableEq, Repr

/-- Apply one builder operation; the fallible operations keep the state of
the call site when they raise `InvalidBinding`. -/
def Program.applyOp (p : Program) (op : Op) : Program :=
  match op with
  | Op.diagnostics n v => p.diagnostics n v
  | Op.shader s d => p.shader s d
  | Op.addUniformBlock i ib => (p.addUniformBlock i ib).2
  | Op.addSamplerBlock i sb => (p.addSamplerBlock i sb).2
  | Op.withSamplerBindings b => p.withSamplerBindings b

/-- Run a sequence of builder operations from a given state. -/
def Program.run (p : Program) (ops : List Op) : Program :=
  ops.foldl Program.applyOp p

/-- The sampler-count invariant of the spec: `samplerCount > 0` iff at
least one sampler block slot has been populated. -/
def samplerInv (p : Program) : Prop :=
  0 < p.mSamplerCount ↔ ∃ i, p.mSamplerInterfaceBlocks i ≠ none

instance (p : Program) : Decidable (samplerInv p) := by
  unfold samplerInv; infer_instance

/-- Auxiliary: the sampler invariant holds of the freshly constructed state. -/
theorem samplerInv_init : samplerInv Program.init := by
  unfold samplerInv Program.init
  simp

/-- Auxiliary: `addSamplerBlock` preserves the sampler invariant. -/
theorem samplerInv_addSamplerBlock (p : Program) (i sb : Nat)
    (h : samplerInv p) : samplerInv (p.addSamplerBlock i sb).2 := by
  by_cases hi : i < NUM_SAMPLER_BINDINGS
  · simp only [Program.addSamplerBlock, dif_pos hi, samplerInv] at *
    by_cases he : p.mSamplerInterfaceBlocks ⟨i, hi⟩ = none
    · simp only [if_pos he]
      constructor
      · intro _
        exact ⟨⟨i, hi⟩, by simp⟩
      · intro _
        exact Nat.succ_pos _
    · simp only [if_neg he]
      constructor
      · intro _
        exact ⟨⟨i, hi⟩, by simp⟩
      · intro _
        exact h.mpr ⟨⟨i, hi⟩, he⟩
  · simpa only [Program.addSamplerBlock, dif_neg hi] using h

/-- Auxiliary: `addUniformBlock` preserves the sampler invariant. -/
theorem samplerInv_addUniformBlock (p : Program) (i ib : Nat)
    (h : samplerInv p) : samplerInv (p.addUniformBlock i ib).2 := by
  by_cases hi : i < NUM_UNIFORM_BINDINGS
  · simpa only [Program.addUniformBlock, dif_pos hi, samplerInv] using h
  · simpa only [Program.addUniformBlock, dif_neg hi] using h

/-- Auxiliary: each builder operation preserves the sampler invariant. -/
theorem samplerInv_applyOp (p : Program) (op : Op) (h : samplerInv p) :
    samplerInv (p.applyOp op) := by
  cases op with
  | diagnostics n v => simpa only [Program.applyOp, Program.diagnostics, samplerInv] using h
  | shader s d => simpa only [Program.applyOp, Program.shader, samplerInv] using h
  | addUniformBlock i ib => exact samplerInv_addUniformBlock p i ib h
  | addSamplerBlock i sb => exact samplerInv_addSamplerBlock p i sb h
  | withSamplerBindings b =>
      simpa only [Program.applyOp, Program.withSamplerBindings, samplerInv] using h

/-- Auxiliary: a run of builder operations preserves the sampler invariant. -/
theorem samplerInv_run (p : Program) (ops : List Op) (h : samplerInv p) :
    samplerInv (p.run ops) := by
  induction ops generalizing p with
  | nil => exact h
  | cons op ops ih => exact ih (p.applyOp op) (samplerInv_applyOp p op h)

/-- Auxiliary: no builder operation ever decreases `mSamplerCount`. -/
theorem samplerCount_le_applyOp (p : Program) (op : Op) :
    p.mSamplerCount ≤ (p.applyOp op).mSamplerCount := by
  cases op with
  | diagnostics n v => exact Nat.le_refl _
  | shader s d => exact Nat.le_refl _
  | addUniformBlock i ib =>
      by_cases hi : i < NUM_UNIFORM_BINDINGS
      · simp only [Program.applyOp, Program.addUniformBlock, dif_pos hi]
        exact Nat.le_refl _
      · simp only [Program.applyOp, Program.addUniformBlock, dif_neg hi]
        exact Nat.le_refl _
  | addSamplerBlock i sb =>
      by_cases hi : i < NUM_SAMPLER_BINDINGS
      · simp only [Program.applyOp, Program.addSamplerBlock, dif_pos hi]
        by_cases he : p.mSamplerInterfaceBlocks ⟨i, hi⟩ = none
        · simp only [if_pos he]
          exact Nat.le_succ _
        · simp only [if_neg he]
          exact Nat.le_refl _
      · simp only [Program.applyOp, Program.addSamplerBlock, dif_neg hi]
        exact Nat.le_refl _
  | withSamplerBindings b => exact Nat.le_refl _

/-- Auxiliary: a run of builder operations never decreases `mSamplerCount`. -/
theorem samplerCount_le_run (p : Program) (ops : List Op) :
    p.mSamplerCount ≤ (p.run ops).mSamplerCount := by
  induction ops generalizing p with
  | nil => exact Nat.le_refl _
  | cons op ops ih =>
      exact Nat.le_trans (samplerCount_le_applyOp p op) (ih (p.applyOp op))

/-- Auxiliary: from any state satisfying the sampler invariant, an in-range
`addSamplerBlock` makes `hasSamplers` true. -/
theorem hasSamplers_after_addSamplerBlock (p : Program) (i sb : Nat)
    (hi : i < NUM_SAMPLER_BINDINGS) (h : samplerInv p) :
    (p.addSamplerBlock i sb).2.hasSamplers = true := by
  simp only [Program.addSamplerBlock, dif_pos hi, Program.hasSamplers,
    decide_eq_true_eq]
  by_cases he : p.mSamplerInterfaceBlocks ⟨i, hi⟩ = none
  · simp only [if_pos he]
    exact Nat.succ_pos _
  · simp only [if_neg he]
    exact h.mpr ⟨⟨i, hi⟩, he⟩

/-- C1: for every index outside the valid binding range, `addUniformBlock`
and `addSamplerBlock` fail with `InvalidBinding` raised synchronously at
the call site and leave the whole state (so every uniform and sampler
slot) unchanged. -/
theorem addBlock_invalidBinding (p : Program) (i r s : Nat)
    (h : NUM_UNIFORM_BINDINGS ≤ i) :
    p.addUniformBlock i r = (some ProgramError.InvalidBinding, p) ∧
    p.addSamplerBlock i s = (some ProgramError.InvalidBinding, p) := by
  have h1 : ¬ i < NUM_UNIFORM_BINDINGS := Nat.not_lt.mpr h
  have h2 : ¬ i < NUM_SAMPLER_BINDINGS := Nat.not_lt.mpr h
  exact ⟨by simp [Program.addUniformBlock, dif_neg h1],
    by simp [Program.addSamplerBlock, dif_neg h2]⟩

/-- Witness for `addBlock_invalidBinding` at index 6 on the fresh state. -/
theorem addBlock_invalidBinding_witness :
    NUM_UNIFORM_BINDINGS ≤ 6 ∧
    Program.init.addUniformBlock 6 1 = (some ProgramError.InvalidBinding, Program.init) ∧
    Program.init.addSamplerBlock 6 2 = (some ProgramError.InvalidBinding, Program.init) :=
  ⟨by decide, (addBlock_invalidBinding Program.init 6 1 2 (by decide)).1,
    (addBlock_invalidBinding Program.init 6 1 2 (by decide)).2⟩

/-- C2: moving a `Program` transfers every field (shader buffers, uniform
and sampler slot arrays, binding-map pointer, sampler count, name and
variant) to the destination and leaves the source in the
default-constructed state. -/
theorem move_semantics (p : Program) :
    ((Program.move p).1.mShadersSource = p.mShadersSource ∧
     (Program.move p).1.mUniformInterfaceBlocks = p.mUniformInterfaceBlocks ∧
     (Program.move p).1.mSamplerInterfaceBlocks = p.mSamplerInterfaceBlocks ∧
     (Program.move p).1.mSamplerBindings = p.mSamplerBindings ∧
     (Program.move p).1.mSamplerCount = p.mSamplerCount ∧
     (Program.move p).1.mName = p.mName ∧
     (Program.move p).1.mVariant = p.mVariant) ∧
    ((Program.move p).2.mShadersSource = fun _ => []) ∧
    ((Program.move p).2.mUniformInterfaceBlocks = fun _ => none) ∧
    ((Program.move p).2.mSamplerInterfaceBlocks = fun _ => none) ∧
    (Program.move p).2.mSamplerBindings = none ∧
    (Program.move p).2.mSamplerCount = 0 ∧
    (Program.move p).2.mName = "" ∧
    (Program.move p).2.mVariant = 0 ∧
    (Program.move p).2 = Program.init :=
  ⟨⟨rfl, rfl, rfl, rfl, rfl, rfl, rfl⟩,
    rfl, rfl, rfl, rfl, rfl, rfl, rfl, rfl⟩

/-- C3: `hasSamplers` is false on a freshly constructed `Program`, is true
right after any in-range `addSamplerBlock` in a run from construction, and
stays true under every further sequence of builder operations. -/
theorem hasSamplers_lifecycle :
    Program.init.hasSamplers = false ∧
    (∀ (ops : List Op) (i sb : Nat), i < NUM_SAMPLER_BINDINGS →
      ((Program.init.run ops).addSamplerBlock i sb).2.hasSamplers = true) ∧
    (∀ (ops : List Op) (i sb : Nat), i < NUM_SAMPLER_BINDINGS →
      ∀ (more : List Op),
        ((((Program.init.run ops).addSamplerBlock i sb).2).run more).hasSamplers = true) := by
  refine ⟨rfl, ?_, ?_⟩
  · intro ops i sb hi
    exact hasSamplers_after_addSamplerBlock _ i sb hi
      (samplerInv_run Program.init ops samplerInv_init)
  · intro ops i sb hi more
    have h1 := hasSamplers_after_addSamplerBlock (Program.init.run ops) i sb hi
      (samplerInv_run Program.init ops samplerInv_init)
    have h2 := samplerCount_le_run ((Program.init.run ops).addSamplerBlock i sb).2 more
    simp only [Program.hasSamplers, decide_eq_true_eq] at h1 ⊢
    exact Nat.lt_of_lt_of_le h1 h2

/-- Witness for `hasSamplers_lifecycle` at concrete inputs. -/
theorem hasSamplers_lifecycle_witness :
    2 < NUM_SAMPLER_BINDINGS ∧
    ((Program.init.run []).addSamplerBlock 2 5).2.hasSamplers = true ∧
    ((((Program.init.run []).addSamplerBlock 2 5).2).run
      [Op.addSamplerBlock 2 7]).hasSamplers = true :=
  ⟨by decide, hasSamplers_lifecycle.2.1 [] 2 5 (by decide),
    hasSamplers_lifecycle.2.2 [] 2 5 (by decide) [Op.addSamplerBlock 2 7]⟩

/-- C4: every builder operation preserves the invariant that
`samplerCount > 0` iff some sampler slot is occupied (and move preserves it
on both of its results); `addSamplerBlock` at an in-range index stores the
reference at that slot and increments `samplerCount` exactly on the
empty-to-occupied transition, never on overwrite. -/
theorem samplerCount_invariant :
    (∀ (p : Program) (op : Op), samplerInv p → samplerInv (p.applyOp op)) ∧
    (∀ p : Program, samplerInv p →
      samplerInv (Program.move p).1 ∧ samplerInv (Program.move p).2) ∧
    (∀ (p : Program) (i sb : Nat) (hi : i < NUM_SAMPLER_BINDINGS),
      (p.addSamplerBlock i sb).2.mSamplerInterfaceBlocks ⟨i, hi⟩ = some sb ∧
      (p.mSamplerInterfaceBlocks ⟨i, hi⟩ = none →
        (p.addSamplerBlock i sb).2.mSamplerCount = p.mSamplerCount + 1) ∧
      (p.mSamplerInterfaceBlocks ⟨i, hi⟩ ≠ none →
        (p.addSamplerBlock i sb).2.mSamplerCount = p.mSamplerCount)) := by
  refine ⟨samplerInv_applyOp, fun p h => ⟨h, samplerInv_init⟩, ?_⟩
  intro p i sb hi
  refine ⟨?_, ?_, ?_⟩
  · simp [Program.addSamplerBlock, dif_pos hi]
  · intro he
    simp [Program.addSamplerBlock, dif_pos hi, if_pos he]
  · intro he
    simp [Program.addSamplerBlock, dif_pos hi, if_neg he]

/-- Witness for `samplerCount_invariant` at concrete inputs. -/
theorem samplerCount_invariant_witness :
    samplerInv (Program.init.applyOp (Op.addSamplerBlock 2 5)) ∧
    (2 < NUM_SAMPLER_BINDINGS ∧
     (Program.init.addSamplerBlock 2 5).2.mSamplerInterfaceBlocks
        ⟨2, by decide⟩ = some 5 ∧
     (Program.init.addSamplerBlock 2 5).2.mSamplerCount =
        Program.init.mSamplerCount + 1) :=
  ⟨samplerCount_invariant.1 Program.init (Op.addSamplerBlock 2 5) samplerInv_init,
    by decide,
    (samplerCount_invariant.2.2 Program.init 2 5 (by decide)).1,
    (samplerCount_invariant.2.2 Program.init 2 5 (by decide)).2.1 rfl⟩

/-- C5: for each stage and byte sequence B, setting that stage's shader to
B then reading that stage's buffer yields exactly B, also when a previous
buffer B0 had been set for that stage (last write wins). -/
theorem shader_roundtrip (p : Program) (stage : Shader) (B B0 : List Nat) :
    (p.shader stage B).getShadersSource stage = B ∧
    ((p.shader stage B0).shader stage B).getShadersSource stage = B := by
  constructor <;>
    simp [Program.shader, Program.getShadersSource]

/-- C6: at a valid binding index, `addUniformBlock` raises no error, stores
the reference at that slot (a repeated call with a different reference
wins), and leaves every other uniform slot unchanged in both calls. -/
theorem addUniformBlock_roundtrip (p : Program) (i : Nat)
    (hi : i < NUM_UNIFORM_BINDINGS) (r r2 : Nat) :
    (p.addUniformBlock i r).1 = none ∧
    (p.addUniformBlock i r).2.getUniformInterfaceBlocks ⟨i, hi⟩ = some r ∧
    ((p.addUniformBlock i r).2.addUniformBlock i r2).2.getUniformInterfaceBlocks
      ⟨i, hi⟩ = some r2 ∧
    (∀ j : Fin NUM_UNIFORM_BINDINGS, j ≠ ⟨i, hi⟩ →
      (p.addUniformBlock i r).2.getUniformInterfaceBlocks j =
        p.getUniformInterfaceBlocks j ∧
      ((p.addUniformBlock i r).2.addUniformBlock i r2).2.getUniformInterfaceBlocks j =
        p.getUniformInterfaceBlocks j) := by
  refine ⟨?_, ?_, ?_, ?_⟩
  · simp [Program.addUniformBlock, dif_pos hi]
  · simp [Program.addUniformBlock, dif_pos hi, Program.getUniformInterfaceBlocks]
  · simp [Program.addUniformBlock, dif_pos hi, Program.getUniformInterfaceBlocks]
  · intro j hj
    constructor <;>
      simp [Program.addUniformBlock, dif_pos hi, Program.getUniformInterfaceBlocks,
        Function.update_noteq hj]

/-- Witness for `addUniformBlock_roundtrip` at concrete inputs. -/
theorem addUniformBlock_roundtrip_witness :
    0 < NUM_UNIFORM_BINDINGS ∧
    (Program.init.addUniformBlock 0 3).1 = none ∧
    ((Program.init.addUniformBlock 0 3).2.addUniformBlock 0 4).2.getUniformInterfaceBlocks
      ⟨0, by decide⟩ = some 4 ∧
    (Program.init.addUniformBlock 0 3).2.getUniformInterfaceBlocks ⟨1, by decide⟩ =
      Program.init.getUniformInterfaceBlocks ⟨1, by decide⟩ :=
  ⟨by decide,
    (addUniformBlock_roundtrip Program.init 0 (by decide) 3 4).1,
    (addUniformBlock_roundtrip Program.init 0 (by decide) 3 4).2.2.1,
    ((addUniformBlock_roundtrip Program.init 0 (by decide) 3 4).2.2.2
      ⟨1, by decide⟩ (by decide)).1⟩

/-- C7: after `diagnostics(N, V)`, `getName` yields N and `getVariant`
yields V; the one-argument form (the omitted variant key) behaves as
`diagnostics(N, 0)`. -/
theorem diagnostics_roundtrip (p : Program) (N : String) (V : Nat) :
    (p.diagnostics N V).getName = N ∧
    (p.diagnostics N V).getVariant = V ∧
    p.diagnosticsDefault N = p.diagnostics N 0 :=
  ⟨rfl, rfl, rfl⟩

/-- C8: `withVertexShader` produces exactly the state of
`shader(VERTEX, data, size)` and `withFragmentShader` exactly that of
`shader(FRAGMENT, data, size)`. -/
theorem withShader_forwards (p : Program) (data : List Nat) :
    p.withVertexShader data = p.shader Shader.VERTEX data ∧
    p.withFragmentShader data = p.shader Shader.FRAGMENT data :=
  ⟨rfl, rfl⟩

/-- C9: a default-constructed `Program` has every uniform slot and every
sampler slot empty, no sampler binding map, sampler count zero, and both
shader-stage buffers empty. -/
theorem init_empty :
    (∀ i, Program.init.getUniformInterfaceBlocks i = none) ∧
    (∀ i, Program.init.getSamplerInterfaceBlocks i = none) ∧
    Program.init.getSamplerBindings = none ∧
    Program.init.mSamplerCount = 0 ∧
    (∀ s, Program.init.getShadersSource s = []) :=
  ⟨fun _ => rfl, fun _ => rfl, rfl, rfl, fun _ => rfl⟩

/-- C10: `withSamplerBindings` changes only the sampler-binding-map
reference: the shader buffers, uniform and sampler slots, sampler count
(hence `hasSamplers`), name and variant are unchanged; from the fresh
state it never makes `hasSamplers` true. -/
theorem withSamplerBindings_frame (p : Program) (m : Nat) :
    (p.withSamplerBindings m).getSamplerBindings = some m ∧
    (p.withSamplerBindings m).getShadersSource = p.getShadersSource ∧
    (p.withSamplerBindings m).getUniformInterfaceBlocks = p.getUniformInterfaceBlocks ∧
    (p.withSamplerBindings m).getSamplerInterfaceBlocks = p.getSamplerInterfaceBlocks ∧
    (p.withSamplerBindings m).mSamplerCount = p.mSamplerCount ∧
    (p.withSamplerBindings m).hasSamplers = p.hasSamplers ∧
    (p.withSamplerBindings m).getName = p.getName ∧
    (p.withSamplerBindings m).getVariant = p.getVariant ∧
    (Program.init.withSamplerBindings m).hasSamplers = false :=
  ⟨rfl, rfl, rfl, rfl, rfl, rfl, rfl, rfl, rfl⟩

end Filament
